import Mathlib

/-!
Shallow embedding of the dose-response curve generation and the personal
dose calculator of `src/app.py` (a Dash single-page app), together with
theorems settling the specification's claims about them.

Modelling conventions:
  * Python/numpy floating-point arithmetic over the fixed constants of the
    program is modelled exactly over `ℚ`; every constant of the source
    (0.01, 0.04, 0.1, 0.005, 0.05, 10, 100) is an exact decimal.
  * `np.linspace(0, 100, 100)` is `linspace 0 100 100`: the `n` evenly
    spaced points `a + (b - a) * i / (n - 1)` for `i = 0, …, n - 1`.
  * `np.piecewise(x, [x < 10, x >= 10], [f, g])` on a partition of the
    sample space is pointwise `if d < 10 then f d else g d`.
  * Python's `round` (banker's rounding, ties to even) is `pyRound`; the
    `"{:.2f}"` format specifier of the message f-string is `formatFixed2`.
  * The callback `update_dose` has no validation or error branch in the
    source, so it is embedded as a total function to `String`.
-/

namespace Dashapp

/-- Embedding of `np.linspace a b n` (src/app.py line 25):
`n` evenly spaced rationals from `a` to `b` inclusive. -/
def linspace (a b : ℚ) (n : ℕ) : List ℚ :=
  (List.range n).map (fun i : ℕ => a + (b - a) * (i : ℚ) / ((n : ℚ) - 1))

/-- `dose_values = np.linspace(0, 100, 100)` (src/app.py line 25). -/
def dose_values : List ℚ := linspace 0 100 100

/-- `lnt_risk = dose_values * 0.01` (src/app.py line 26). -/
def lnt_risk : List ℚ := dose_values.map (fun d => d * 0.01)

/-- Pointwise value of the piecewise threshold model
(src/app.py line 27): `0` below `10`, `(d - 10) * 0.01` at and above. -/
def thresholdPiece (d : ℚ) : ℚ := if d < 10 then 0 else (d - 10) * 0.01

/-- `threshold_risk = np.piecewise(dose_values, [dose_values < 10,
dose_values >= 10], [0, lambda x: (x - 10) * 0.01])` (src/app.py line 27). -/
def threshold_risk : List ℚ := dose_values.map thresholdPiece

/-- Pointwise value of the piecewise hormesis model (src/app.py lines 28-29):
`-0.005 * d + 0.05` below `10`, `(d - 10) * 0.01` at and above. -/
def hormesisPiece (d : ℚ) : ℚ := if d < 10 then -0.005 * d + 0.05 else (d - 10) * 0.01

/-- `hormesis_risk = np.piecewise(dose_values, [dose_values < 10,
dose_values >= 10], [lambda x: -0.005 * x + 0.05, lambda x: (x - 10) * 0.01])`
(src/app.py lines 28-29). -/
def hormesis_risk : List ℚ := dose_values.map hormesisPiece

/-- The dose estimate computed by the calculator callback:
`total_dose = (flights * 0.04) + (xrays * 0.1)` (src/app.py line 236). -/
def estimate (flights xrays : ℚ) : ℚ := flights * 0.04 + xrays * 0.1

/-- Python's `round` to an integer: nearest integer, ties to even. -/
def pyRound (q : ℚ) : ℤ :=
  let n := ⌊q⌋
  if q - n < 1/2 then n
  else if 1/2 < q - n then n + 1
  else if n % 2 = 0 then n else n + 1

/-- Python's `round(q, 2)`: round to the nearest multiple of `1/100`. -/
def round2 (q : ℚ) : ℚ := (pyRound (q * 100) : ℚ) / 100

/-- The decimal digit character of `n % 10`. -/
def digitChar (n : ℕ) : Char := Char.ofNat (48 + n % 10)

/-- The two decimal digits of `n % 100`, most significant first. -/
def twoDigits (n : ℕ) : String := String.mk [digitChar (n / 10), digitChar n]

/-- Integer part (with sign) of the two-decimal rendering of the rational
`n / 100`. -/
def intPartStr (n : ℤ) : String := (if n < 0 then "-" else "") ++ toString (n.natAbs / 100)

/-- Embedding of the f-string format specifier `"{total_dose:.2f}"`
(src/app.py line 237): the two-decimal fixed-point rendering of `q`. -/
def formatFixed2 (q : ℚ) : String :=
  let n := pyRound (q * 100)
  intPartStr n ++ "." ++ twoDigits n.natAbs

/-- The calculator callback `update_dose` (src/app.py lines 235-237):
computes `total_dose` and returns the formatted message. The source has no
validation or error branch, so the embedding is a total function. -/
def update_dose (flights xrays : ℚ) : String :=
  let total_dose := flights * 0.04 + xrays * 0.1
  "Your estimated annual radiation dose from selected activities: " ++
    formatFixed2 total_dose ++ " mSv"

/-- Regeneration of the dose samples and the three risk arrays from the
program's fixed constants alone (src/app.py lines 25-29), as one function of
a unit argument. -/
def regenerate : Unit → List ℚ × List ℚ × List ℚ × List ℚ := fun _ =>
  let ds := linspace 0 100 100
  (ds, ds.map (fun d => d * 0.01), ds.map thresholdPiece, ds.map hormesisPiece)

/-- Element `i` of a map over `List.range n`. -/
theorem range_map_getD (f : ℕ → ℚ) (n i : ℕ) (h : i < n) :
    ((List.range n).map f).getD i 0 = f i := by
  rw [List.getD_eq_getElem _ _ (by simpa using h)]
  simp

/-- The sample list has exactly 100 entries. -/
theorem dose_values_length : dose_values.length = 100 := by
  rw [dose_values, linspace]
  simp

/-- Closed form of the `i`-th dose sample. -/
theorem dose_values_getD (i : ℕ) (h : i < 100) :
    dose_values.getD i 0 = 100 * i / 99 := by
  rw [dose_values, linspace, range_map_getD _ _ _ h]
  norm_num

/-- Element `i` of a risk array derived by mapping over the dose samples. -/
theorem map_dose_getD (f : ℚ → ℚ) (i : ℕ) (h : i < 100) :
    (dose_values.map f).getD i 0 = f (dose_values.getD i 0) := by
  rw [dose_values, linspace, List.map_map, range_map_getD _ _ _ h, range_map_getD _ _ _ h]
  rfl

/-- The dose samples are monotonically non-decreasing in the index. -/
theorem dose_values_mono (i j : ℕ) (hij : i ≤ j) (hj : j < 100) :
    dose_values.getD i 0 ≤ dose_values.getD j 0 := by
  rw [dose_values_getD i (lt_of_le_of_lt hij hj), dose_values_getD j hj]
  have hc : (i : ℚ) ≤ (j : ℚ) := by exact_mod_cast hij
  gcongr

/-- `pyRound` is the identity on integers. -/
theorem pyRound_intCast (n : ℤ) : pyRound (n : ℚ) = n := by
  norm_num [pyRound, Int.floor_intCast]

/-- For integer flight and X-ray counts the dose estimate is an exact
multiple of `1/100`, so rounding it to two decimals returns it unchanged. -/
theorem round2_estimate_int (f x : ℤ) :
    round2 ((f : ℚ) * 0.04 + (x : ℚ) * 0.1) = (f : ℚ) * 0.04 + (x : ℚ) * 0.1 := by
  have h : ((f : ℚ) * 0.04 + (x : ℚ) * 0.1) * 100 = ((4 * f + 10 * x : ℤ) : ℚ) := by
    push_cast
    ring
  rw [round2, h, pyRound_intCast]
  push_cast
  ring

/-- Below the 10 mSv cutoff every hormesis sample is strictly positive. -/
theorem hormesis_pos_below (i : ℕ) (hi : i < 100)
    (hlt : dose_values.getD i 0 < 10) : 0 < hormesis_risk.getD i 0 := by
  rw [hormesis_risk, map_dose_getD _ i hi]
  simp only [hormesisPiece, if_pos hlt]
  linarith

/-- C1: for every flights value `f ∈ [0,50]` and X-ray value `x ∈ [0,10]`,
the calculator computes the estimate as `f * 0.04 + x * 0.1`, which equals
`round(f * 0.04 + x * 0.1, 2)`, and `update_dose` renders it inside the
sentence formatted to exactly two decimal places. -/
theorem C1_estimate_rounds_and_renders (f x : ℤ)
    (hf0 : 0 ≤ f) (hf1 : f ≤ 50) (hx0 : 0 ≤ x) (hx1 : x ≤ 10) :
    estimate (f : ℚ) (x : ℚ) = round2 ((f : ℚ) * 0.04 + (x : ℚ) * 0.1) ∧
    update_dose (f : ℚ) (x : ℚ) =
      "Your estimated annual radiation dose from selected activities: " ++
        formatFixed2 (estimate (f : ℚ) (x : ℚ)) ++ " mSv" ∧
    formatFixed2 (estimate (f : ℚ) (x : ℚ)) =
      intPartStr (pyRound (estimate (f : ℚ) (x : ℚ) * 100)) ++ "." ++
        twoDigits (pyRound (estimate (f : ℚ) (x : ℚ) * 100)).natAbs ∧
    (twoDigits (pyRound (estimate (f : ℚ) (x : ℚ) * 100)).natAbs).length = 2 :=
  ⟨(round2_estimate_int f x).symm, rfl, rfl, rfl⟩

/-- Witness for C1 at flights = 5, xrays = 1 (the sliders' default values). -/
theorem C1_witness :
    estimate ((5 : ℤ) : ℚ) ((1 : ℤ) : ℚ) =
      round2 (((5 : ℤ) : ℚ) * 0.04 + ((1 : ℤ) : ℚ) * 0.1) ∧
    update_dose ((5 : ℤ) : ℚ) ((1 : ℤ) : ℚ) =
      "Your estimated annual radiation dose from selected activities: " ++
        formatFixed2 (estimate ((5 : ℤ) : ℚ) ((1 : ℤ) : ℚ)) ++ " mSv" ∧
    formatFixed2 (estimate ((5 : ℤ) : ℚ) ((1 : ℤ) : ℚ)) =
      intPartStr (pyRound (estimate ((5 : ℤ) : ℚ) ((1 : ℤ) : ℚ) * 100)) ++ "." ++
        twoDigits (pyRound (estimate ((5 : ℤ) : ℚ) ((1 : ℤ) : ℚ) * 100)).natAbs ∧
    (twoDigits (pyRound (estimate ((5 : ℤ) : ℚ) ((1 : ℤ) : ℚ) * 100)).natAbs).length = 2 :=
  C1_estimate_rounds_and_renders 5 1 (by norm_num) (by norm_num) (by norm_num) (by norm_num)

/-- C2: the three anchor points of the dose calculator:
`estimate 0 0 = 0.00`, `estimate 5 1 = 0.30` and `estimate 50 10 = 3.00`. -/
theorem C2_anchor_points :
    estimate 0 0 = 0.00 ∧ estimate 5 1 = 0.30 ∧ estimate 50 10 = 3.00 := by
  norm_num [estimate]

/-- C3: every threshold sample is `0` below dose `10` and `(d - 10) * 0.01`
at and above `10`; consequently the curve is `0` on all samples below `10`
and monotonically non-decreasing from any sample at dose `≥ 10` on. -/
theorem C3_threshold_curve :
    (∀ i, i < 100 → threshold_risk.getD i 0 =
      (if dose_values.getD i 0 < 10 then 0 else (dose_values.getD i 0 - 10) * 0.01)) ∧
    (∀ i, i < 100 → dose_values.getD i 0 < 10 → threshold_risk.getD i 0 = 0) ∧
    (∀ i j, i ≤ j → j < 100 → 10 ≤ dose_values.getD i 0 →
      threshold_risk.getD i 0 ≤ threshold_risk.getD j 0) := by
  refine ⟨?_, ?_, ?_⟩
  · intro i hi
    rw [threshold_risk, map_dose_getD _ i hi]
    rfl
  · intro i hi hlt
    rw [threshold_risk, map_dose_getD _ i hi]
    simp only [thresholdPiece, if_pos hlt]
  · intro i j hij hj hge
    have hi : i < 100 := lt_of_le_of_lt hij hj
    have hmono := dose_values_mono i j hij hj
    have hgej : 10 ≤ dose_values.getD j 0 := le_trans hge hmono
    rw [threshold_risk, map_dose_getD _ i hi, map_dose_getD _ j hj]
    simp only [thresholdPiece, if_neg (not_lt.mpr hge), if_neg (not_lt.mpr hgej)]
    linarith

/-- Witness for C3: the first sample lies below 10 with threshold value 0,
and the curve does not decrease from sample 10 to sample 99. -/
theorem C3_witness :
    threshold_risk.getD 0 0 = 0 ∧
    threshold_risk.getD 10 0 ≤ threshold_risk.getD 99 0 :=
  ⟨C3_threshold_curve.2.1 0 (by norm_num)
      (by rw [dose_values_getD 0 (by norm_num)]; norm_num),
   C3_threshold_curve.2.2 10 99 (by norm_num) (by norm_num)
      (by rw [dose_values_getD 10 (by norm_num)]; norm_num)⟩

/-- C4: every hormesis sample (piecewise-linear variant) is
`-0.005 * d + 0.05` below dose `10` and `(d - 10) * 0.01` at and above. -/
theorem C4_hormesis_curve (i : ℕ) (hi : i < 100) :
    hormesis_risk.getD i 0 =
      (if dose_values.getD i 0 < 10 then -0.005 * dose_values.getD i 0 + 0.05
       else (dose_values.getD i 0 - 10) * 0.01) := by
  rw [hormesis_risk, map_dose_getD _ i hi]
  rfl

/-- Witness for C4 at sample 0. -/
theorem C4_witness :
    hormesis_risk.getD 0 0 =
      (if dose_values.getD 0 0 < 10 then -0.005 * dose_values.getD 0 0 + 0.05
       else (dose_values.getD 0 0 - 10) * 0.01) :=
  C4_hormesis_curve 0 (by norm_num)

/-- C5 counterexample: the claim that some sampled dose below 10 has a
negative hormesis value is false: no sample below 10 is negative. -/
theorem C5_counterexample :
    ¬ ∃ i : Fin 100, dose_values.getD i 0 < 10 ∧ hormesis_risk.getD i 0 < 0 := by
  rintro ⟨i, h1, h2⟩
  exact absurd h2 (not_lt.mpr (le_of_lt (hormesis_pos_below i i.isLt h1)))

/-- C5 (amended): for every sampled dose below 10 the hormesis value is
strictly positive; the "beneficial" low-dose region of the code is a region
of reduced but positive relative risk, not of negative risk values. -/
theorem C5_amended_hormesis_positive_below (i : ℕ) (hi : i < 100)
    (hlt : dose_values.getD i 0 < 10) : 0 < hormesis_risk.getD i 0 :=
  hormesis_pos_below i hi hlt

/-- Witness for the amended C5 at sample 0 (dose 0, hormesis value 0.05). -/
theorem C5_witness : 0 < hormesis_risk.getD 0 0 :=
  C5_amended_hormesis_positive_below 0 (by norm_num)
    (by rw [dose_values_getD 0 (by norm_num)]; norm_num)

/-- C6: every LNT sample equals its dose times `0.01`; the curve is
monotonically non-decreasing over the samples and passes through `(0, 0)`
and `(100, 1.0)`. -/
theorem C6_lnt_curve :
    (∀ i, i < 100 → lnt_risk.getD i 0 = dose_values.getD i 0 * 0.01) ∧
    (∀ i j, i ≤ j → j < 100 → lnt_risk.getD i 0 ≤ lnt_risk.getD j 0) ∧
    dose_values.getD 0 0 = 0 ∧ lnt_risk.getD 0 0 = 0 ∧
    dose_values.getD 99 0 = 100 ∧ lnt_risk.getD 99 0 = 1 := by
  have hval : ∀ i, i < 100 → lnt_risk.getD i 0 = dose_values.getD i 0 * 0.01 := by
    intro i hi
    rw [lnt_risk, map_dose_getD _ i hi]
  refine ⟨hval, ?_, ?_, ?_, ?_, ?_⟩
  · intro i j hij hj
    have hi : i < 100 := lt_of_le_of_lt hij hj
    rw [hval i hi, hval j hj]
    have hmono := dose_values_mono i j hij hj
    linarith
  · rw [dose_values_getD 0 (by norm_num)]
    norm_num
  · rw [hval 0 (by norm_num), dose_values_getD 0 (by norm_num)]
    norm_num
  · rw [dose_values_getD 99 (by norm_num)]
    norm_num
  · rw [hval 99 (by norm_num), dose_values_getD 99 (by norm_num)]
    norm_num

/-- Witness for C6: the pointwise law at sample 0 and monotonicity from
sample 0 to sample 99. -/
theorem C6_witness :
    lnt_risk.getD 0 0 = dose_values.getD 0 0 * 0.01 ∧
    lnt_risk.getD 0 0 ≤ lnt_risk.getD 99 0 :=
  ⟨C6_lnt_curve.1 0 (by norm_num),
   C6_lnt_curve.2.1 0 99 (by norm_num) (by norm_num)⟩

/-- C7: the dose sample array holds exactly 100 values, starts at 0, ends
at 100, has constant spacing `100 / 99` between consecutive samples, and is
monotonically non-decreasing. -/
theorem C7_dose_samples :
    dose_values.length = 100 ∧
    dose_values.getD 0 0 = 0 ∧
    dose_values.getD 99 0 = 100 ∧
    (∀ i, i + 1 < 100 →
      dose_values.getD (i + 1) 0 - dose_values.getD i 0 = 100 / 99) ∧
    (∀ i j, i ≤ j → j < 100 → dose_values.getD i 0 ≤ dose_values.getD j 0) := by
  refine ⟨dose_values_length, ?_, ?_, ?_, dose_values_mono⟩
  · rw [dose_values_getD 0 (by norm_num)]
    norm_num
  · rw [dose_values_getD 99 (by norm_num)]
    norm_num
  · intro i hi
    rw [dose_values_getD (i + 1) hi, dose_values_getD i (by omega)]
    push_cast
    ring

/-- Witness for C7: the spacing between the first two samples and
monotonicity from sample 0 to sample 99. -/
theorem C7_witness :
    dose_values.getD 1 0 - dose_values.getD 0 0 = 100 / 99 ∧
    dose_values.getD 0 0 ≤ dose_values.getD 99 0 :=
  ⟨C7_dose_samples.2.2.2.1 0 (by norm_num),
   C7_dose_samples.2.2.2.2 0 99 (by norm_num) (by norm_num)⟩

/-- C8: regenerating the dose sample array and the three derived risk
arrays twice yields identical values, and one regeneration reproduces the
module-level arrays exactly: the generation is a deterministic function of
the program's fixed constants with no hidden randomness. -/
theorem C8_deterministic_regeneration :
    regenerate () = regenerate () ∧
    regenerate () = (dose_values, lnt_risk, threshold_risk, hormesis_risk) :=
  ⟨rfl, rfl⟩

/-- C9: at every sampled dose at or above 10, the threshold curve and the
hormesis curve take the same value: both reduce to `(d - 10) * 0.01`. -/
theorem C9_threshold_hormesis_agree (i : ℕ) (hi : i < 100)
    (hge : 10 ≤ dose_values.getD i 0) :
    threshold_risk.getD i 0 = hormesis_risk.getD i 0 := by
  rw [threshold_risk, hormesis_risk, map_dose_getD _ i hi, map_dose_getD _ i hi]
  simp only [thresholdPiece, hormesisPiece, if_neg (not_lt.mpr hge)]

/-- Witness for C9 at sample 10 (dose `1000/99 ≥ 10`). -/
theorem C9_witness : threshold_risk.getD 10 0 = hormesis_risk.getD 10 0 :=
  C9_threshold_hormesis_agree 10 (by norm_num)
    (by rw [dose_values_getD 10 (by norm_num)]; norm_num)

/-- C10: `update_dose` is total over all rational inputs, including values
far outside the slider ranges: it always returns the formatted message
built from `flights * 0.04 + xrays * 0.1`, with no validation or error
branch. -/
theorem C10_update_dose_total :
    ∀ flights xrays : ℚ, update_dose flights xrays =
      "Your estimated annual radiation dose from selected activities: " ++
        formatFixed2 (flights * 0.04 + xrays * 0.1) ++ " mSv" :=
  fun _ _ => rfl

/-- Witness for C10 at inputs far outside the slider ranges. -/
theorem C10_witness :
    update_dose (-7) 1000 =
      "Your estimated annual radiation dose from selected activities: " ++
        formatFixed2 ((-7) * 0.04 + 1000 * 0.1) ++ " mSv" :=
  C10_update_dose_total (-7) 1000

end Dashapp
